import Mathlib

/-!
Verification development for the Coherence Validation & Curing subsystem of
the langgraph-tests repository.  The implementation modules
(`lcascade.langgraph_common.coherence_validator` and
`lcascade.langgraph_common.curing_service`) are not part of the source tree
here (only their unit tests and the test harness are), so every definition
below is modelled from the natural-language specification (spec.md), kept
consistent with the behaviour asserted by the unit tests in
`src/tests/unit/test_coherence_validator.py` and
`src/tests/unit/test_curing_service.py`.
-/

/-- Severity of a coherence issue: LOW < MEDIUM < HIGH < CRITICAL. -/
inductive IssueSeverity
  | low
  | medium
  | high
  | critical
deriving DecidableEq

/-- The nine issue kinds of the rule set (spec §3, test `TestIssueTypeEnum`). -/
inductive IssueType
  | intent_mismatch
  | urgency_priority_mismatch
  | ungrounded_action
  | missing_entity_reference
  | sentiment_contradiction
  | role_routing_mismatch
  | complexity_workload_mismatch
  | confidence_anomaly
  | generic_summary
deriving DecidableEq

/-- Modelled from the spec: a Coherence Issue (spec §3) — issue type, severity,
description, the two layer identifiers being cross-checked, optional evidence. -/
structure CoherenceIssue where
  issue_type : IssueType
  severity : IssueSeverity
  description : String
  layer_a : String
  layer_b : String
  evidence : Option String := none
deriving DecidableEq

/-- Modelled from the spec: the Coherence Result (spec §3) — verdict, score in
[0,1], ordered issue list, non-scoring warnings. -/
structure CoherenceResult where
  is_coherent : Bool
  score : ℚ
  issues : List CoherenceIssue
  warnings : List String
deriving DecidableEq

/-- A raw entity entry of the snapshot's `l3_entities` list; fields may be
missing in malformed input. -/
structure RawEntity where
  entity_type : Option String := none
  entity_value : Option String := none
deriving DecidableEq

/-- A raw action-item entry of the snapshot's `l9_action_items` list. -/
structure RawAction where
  action : Option String := none
deriving DecidableEq

/-- A dynamic field value of a cascade snapshot mapping.  Mirrors the Python
dict values the validator receives: `None`, numbers, strings, entity lists and
action-item lists; any of them can sit under any key (malformed input). -/
inductive JVal
  | null
  | int (n : Int)
  | str (s : String)
  | entities (es : List RawEntity)
  | actions (items : List RawAction)
deriving DecidableEq

/-- Modelled from the spec: a cascade snapshot is a mapping of named fields
(spec §3); we model it as an association list so that missing keys, `None`
values and wrongly-typed values are all representable. -/
abbrev CascadeSnapshot := List (String × JVal)

/-- Look a field up under a list of alternate key names (spec §3: field names
may appear under alternate keys; the validator must accept either). -/
def lookupKeys (snap : CascadeSnapshot) : List String → Option JVal
  | [] => none
  | k :: ks =>
    match snap.lookup k with
    | some v => some v
    | none => lookupKeys snap ks

/-- Clamp an integer into [lo, hi]. -/
def clampInt (lo hi n : Int) : Int := max lo (min hi n)

/-- Modelled from the spec: read a 1–5 score field; missing, `None` or
non-numeric values degrade to `none` (rule skipped), out-of-range numeric
values are clamped to the valid domain (spec §3, §4.1). -/
def getScore1to5 (snap : CascadeSnapshot) (keys : List String) : Option Int :=
  match lookupKeys snap keys with
  | some (.int n) => some (clampInt 1 5 n)
  | _ => none

/-- Read an integer field without clamping (estimated minutes). -/
def getIntField (snap : CascadeSnapshot) (keys : List String) : Option Int :=
  match lookupKeys snap keys with
  | some (.int n) => some n
  | _ => none

/-- Read a string field; missing, `None`, wrongly-typed or empty values
degrade to `none` (rule skipped). -/
def getStrField (snap : CascadeSnapshot) (keys : List String) : Option String :=
  match lookupKeys snap keys with
  | some (.str s) => if s = "" then none else some s
  | _ => none

/-- Read the executive summary; missing or malformed degrades to `""`. -/
def getSummaryField (snap : CascadeSnapshot) (keys : List String) : String :=
  match lookupKeys snap keys with
  | some (.str s) => s
  | _ => ""

/-- Read the entity list; missing or malformed degrades to `[]`. -/
def getEntitiesField (snap : CascadeSnapshot) (keys : List String) : List RawEntity :=
  match lookupKeys snap keys with
  | some (.entities es) => es
  | _ => []

/-- Read the action-item list; missing or malformed degrades to `[]`. -/
def getActionsField (snap : CascadeSnapshot) (keys : List String) : List RawAction :=
  match lookupKeys snap keys with
  | some (.actions items) => items
  | _ => []

def snapUrgency (snap : CascadeSnapshot) : Option Int :=
  getScore1to5 snap ["l5_urgency_score", "urgency_score"]

def snapPriority (snap : CascadeSnapshot) : Option String :=
  getStrField snap ["l9_priority", "recommended_priority", "priority"]

def snapSummary (snap : CascadeSnapshot) : String :=
  getSummaryField snap ["l9_executive_summary", "executive_summary"]

def snapEntities (snap : CascadeSnapshot) : List RawEntity :=
  getEntitiesField snap ["l3_entities", "entities"]

def snapActions (snap : CascadeSnapshot) : List RawAction :=
  getActionsField snap ["l9_action_items", "action_items"]

def snapIntent (snap : CascadeSnapshot) : Option String :=
  getStrField snap ["l2_intent", "intent"]

def snapSentiment (snap : CascadeSnapshot) : Option String :=
  getStrField snap ["l2_sentiment", "sentiment"]

def snapRoutingHint (snap : CascadeSnapshot) : Option String :=
  getStrField snap ["l2_routing_hint", "routing_hint"]

def snapSenderRole (snap : CascadeSnapshot) : Option String :=
  getStrField snap ["l4_sender_role", "sender_role"]

def snapSenderPosture (snap : CascadeSnapshot) : Option String :=
  getStrField snap ["l4_sender_posture", "sender_posture"]

def snapComplexity (snap : CascadeSnapshot) : Option Int :=
  getScore1to5 snap ["l7_complexity_score", "complexity_score"]

def snapEstMinutes (snap : CascadeSnapshot) : Option Int :=
  getIntField snap ["l7_est_minutes", "est_minutes"]

/-- ASCII lowercasing of one character (the labels and keyword tables the
rules compare are ASCII). -/
def lowerChar (c : Char) : Char :=
  if 'A' ≤ c ∧ c ≤ 'Z' then Char.ofNat (c.toNat + 32) else c

/-- ASCII-lowercase a string. -/
def strLower (s : String) : String := String.mk (s.toList.map lowerChar)

/-- Does `needle` start at the head of `hay`? -/
def startsWithChars : List Char → List Char → Bool
  | [], _ => true
  | _ :: _, [] => false
  | a :: as, b :: bs => a == b && startsWithChars as bs

/-- Does `needle` occur as a contiguous run inside `hay`? -/
def hasSubChars (needle : List Char) : List Char → Bool
  | [] => needle.isEmpty
  | c :: cs => startsWithChars needle (c :: cs) || hasSubChars needle cs

/-- Case-insensitive substring containment. -/
def containsPhrase (hay needle : String) : Bool :=
  hasSubChars (strLower needle).toList (strLower hay).toList

/-- Modelled from the spec: expected priority per urgency score — 1→low,
2→low, 3→medium, 4→high, 5→critical (spec §4.1 rule 1). -/
def expectedPriority (u : Int) : String :=
  if u ≤ 2 then "low"
  else if u = 3 then "medium"
  else if u = 4 then "high"
  else "critical"

/-- Modelled from the spec: severity of an urgency–priority mismatch —
CRITICAL if urgency 4–5 against "low", HIGH if urgency 1–2 against
"critical"/"high", otherwise MEDIUM (spec §4.1 rule 1). -/
def urgencyMismatchSeverity (u : Int) (pl : String) : IssueSeverity :=
  if (u == 4 || u == 5) && pl == "low" then .critical
  else if (u == 1 || u == 2) && (pl == "critical" || pl == "high") then .high
  else .medium

/-- Modelled from the spec: rule 1, urgency–priority alignment; the rule is
skipped when either field is missing (spec §4.1 rule 1). -/
def checkUrgencyPriority (u : Option Int) (p : Option String) : List CoherenceIssue :=
  match u, p with
  | some u, some p =>
    let pl := strLower p
    if pl == expectedPriority u then []
    else
      [{ issue_type := .urgency_priority_mismatch,
         severity := urgencyMismatchSeverity u pl,
         description := "Urgency score does not align with recommended priority",
         layer_a := "L5", layer_b := "L9",
         evidence := some pl }]
  | _, _ => []

/-- Modelled from the spec: the trigger-keyword → required-entity-type table of
rule 2 (spec §4.1 rule 2). -/
def actionEntityRequirements : List (String × String) :=
  [("call", "phone"),
   ("email", "email"),
   ("check order", "order"),
   ("verify invoice", "invoice"),
   ("track", "delivery")]

/-- Does the snapshot's entity list contain an entity of the given type? -/
def hasEntityOfType (es : List RawEntity) (t : String) : Bool :=
  es.any fun e =>
    match e.entity_type with
    | some s => strLower s == t
    | none => false

/-- Issues produced by one action item under rule 2: one UNGROUNDED_ACTION
issue per trigger keyword present without an entity of the required type. -/
def actionIssues (es : List RawEntity) (a : RawAction) : List CoherenceIssue :=
  match a.action with
  | none => []
  | some text =>
    (actionEntityRequirements.filter
        (fun kv => containsPhrase text kv.1 && !hasEntityOfType es kv.2)).map
      fun kv =>
        { issue_type := .ungrounded_action,
          severity := .high,
          description := "Action item references an entity type absent from the snapshot",
          layer_a := "L3", layer_b := "L9",
          evidence := some kv.2 }

/-- Modelled from the spec: rule 2, entity grounding (spec §4.1 rule 2). -/
def checkEntityGrounding (es : List RawEntity) (items : List RawAction) : List CoherenceIssue :=
  (items.map (actionIssues es)).flatten

/-- Modelled from the spec: intent → expected summary keywords, with localized
(German) variants (spec §4.1 rule 3). -/
def intentKeywords : List (String × List String) :=
  [("order", ["order", "purchase", "bestellung"]),
   ("complaint", ["complaint", "complain", "unhappy", "dissatisf", "beschwerde"]),
   ("invoice", ["invoice", "billing", "payment", "rechnung"]),
   ("delivery", ["delivery", "shipping", "shipment", "track", "lieferung"])]

/-- Modelled from the spec: rule 3, intent consistency — only applies to known
intents and summaries of at least 50 characters (spec §4.1 rule 3). -/
def checkIntentConsistency (intent : Option String) (summary : String) : List CoherenceIssue :=
  match intent with
  | none => []
  | some it =>
    if summary.length < 50 then []
    else
      match intentKeywords.lookup (strLower it) with
      | none => []
      | some kws =>
        if kws.any (fun k => containsPhrase summary k) then []
        else
          [{ issue_type := .intent_mismatch,
             severity := .high,
             description := "Executive summary lacks any keyword matching the detected intent",
             layer_a := "L2", layer_b := "L9",
             evidence := some (strLower it) }]

/-- Modelled from the spec: sender role → allowed routing hints (spec §4.1
rule 4). -/
def roleRoutingTable : List (String × List String) :=
  [("customer", ["sales", "support", "service"]),
   ("supplier", ["ops", "procurement", "purchasing"]),
   ("partner", ["sales", "management"]),
   ("internal", ["ops", "management"])]

/-- Modelled from the spec: rule 4, role–routing consistency — empty or
unrecognized role skips the check; mismatch is LOW severity (spec §4.1
rule 4). -/
def checkRoleRouting (role routing : Option String) : List CoherenceIssue :=
  match role, routing with
  | some r, some h =>
    match roleRoutingTable.lookup (strLower r) with
    | none => []
    | some allowed =>
      if allowed.contains (strLower h) then []
      else
        [{ issue_type := .role_routing_mismatch,
           severity := .low,
           description := "Routing hint is outside the expected set for the sender role",
           layer_a := "L4", layer_b := "L2",
           evidence := some (strLower h) }]
  | _, _ => []

/-- Modelled from the spec: the fixed boilerplate/fallback phrase list of
rule 5 (spec §4.1 rule 5). -/
def genericPhrases : List String :=
  ["unable to generate",
   "manual review required",
   "general inquiry",
   "no specific information",
   "could not determine"]

/-- Modelled from the spec: rule 5, generic-output detection — a boilerplate
phrase (case-insensitive) flags GENERIC_SUMMARY; independently a non-empty
summary shorter than 30 characters flags GENERIC_SUMMARY; the empty summary
triggers neither (spec §4.1 rule 5). -/
def checkGenericOutput (summary : String) : List CoherenceIssue :=
  if genericPhrases.any (fun ph => containsPhrase summary ph) then
    [{ issue_type := .generic_summary,
       severity := .high,
       description := "Executive summary matches a boilerplate fallback phrase",
       layer_a := "L9", layer_b := "L9",
       evidence := some (strLower summary) }]
  else if summary ≠ "" ∧ summary.length < 30 then
    [{ issue_type := .generic_summary,
       severity := .high,
       description := "Executive summary is too short to be specific",
       layer_a := "L9", layer_b := "L9",
       evidence := some (strLower summary) }]
  else []

/-- Modelled from the spec: expected estimated-minutes band per complexity
score — 1→0–15, 3→15–60, 5→60+ (spec §4.1 rule 6; the bands for 2 and 4 are
interpolated, no behavioural evidence pins them down). -/
def complexityBand (c : Int) : Int × Option Int :=
  if c ≤ 1 then (0, some 15)
  else if c = 2 then (5, some 30)
  else if c = 3 then (15, some 60)
  else if c = 4 then (30, some 120)
  else (60, none)

/-- Modelled from the spec: rule 6, complexity–workload mismatch, MEDIUM
severity (spec §4.1 rule 6). -/
def checkComplexityWorkload (c m : Option Int) : List CoherenceIssue :=
  match c, m with
  | some c, some m =>
    let band := complexityBand c
    let violation : Bool :=
      decide (m < band.1) || (match band.2 with | some hi => decide (hi < m) | none => false)
    if violation then
      [{ issue_type := .complexity_workload_mismatch,
         severity := .medium,
         description := "Estimated minutes fall outside the expected band for the complexity score",
         layer_a := "L7", layer_b := "L7",
         evidence := none }]
    else []
  | _, _ => []

/-- Modelled from the spec: the explicit sentiment/posture incompatibility
table of rule 7 (spec §4.1 rule 7). -/
def incompatibleSentimentPosture : List (String × String) :=
  [("positive", "complaining"), ("positive", "escalating")]

/-- Modelled from the spec: rule 7, sentiment–posture consistency, MEDIUM
severity (spec §4.1 rule 7). -/
def checkSentimentPosture (sentiment posture : Option String) : List CoherenceIssue :=
  match sentiment, posture with
  | some s, some p =>
    if incompatibleSentimentPosture.contains (strLower s, strLower p) then
      [{ issue_type := .sentiment_contradiction,
         severity := .medium,
         description := "Sentiment is incompatible with the sender posture",
         layer_a := "L2", layer_b := "L4",
         evidence := none }]
    else []
  | _, _ => []

/-- Modelled from the spec: validator configuration — per-rule enable flags
(default all enabled) plus the pass-through `strict_mode` flag (spec §4.1). -/
structure ValidatorConfig where
  strict_mode : Bool := false
  check_urgency_priority : Bool := true
  check_entity_grounding : Bool := true
  check_intent_consistency : Bool := true
  check_role_routing : Bool := true
  check_generic_output : Bool := true
deriving DecidableEq

/-- All issues produced by the enabled rules, in rule order. -/
def collectIssues (cfg : ValidatorConfig) (snap : CascadeSnapshot) : List CoherenceIssue :=
  (if cfg.check_urgency_priority then
    checkUrgencyPriority (snapUrgency snap) (snapPriority snap) else [])
  ++ (if cfg.check_entity_grounding then
    checkEntityGrounding (snapEntities snap) (snapActions snap) else [])
  ++ (if cfg.check_intent_consistency then
    checkIntentConsistency (snapIntent snap) (snapSummary snap) else [])
  ++ (if cfg.check_role_routing then
    checkRoleRouting (snapSenderRole snap) (snapRoutingHint snap) else [])
  ++ (if cfg.check_generic_output then
    checkGenericOutput (snapSummary snap) else [])
  ++ checkComplexityWorkload (snapComplexity snap) (snapEstMinutes snap)
  ++ checkSentimentPosture (snapSentiment snap) (snapSenderPosture snap)

/-- Modelled from the spec: fixed per-issue score penalty by severity —
CRITICAL 0.25, HIGH 0.15, MEDIUM 0.08, LOW 0.02 (spec §4.1). -/
def severityPenalty : IssueSeverity → ℚ
  | .critical => 1/4
  | .high => 3/20
  | .medium => 2/25
  | .low => 1/50

/-- Total penalty of an issue list. -/
def penaltySum (issues : List CoherenceIssue) : ℚ :=
  (issues.map (fun i => severityPenalty i.severity)).sum

/-- Clamp a score to [0, 1]. -/
def clampScore (q : ℚ) : ℚ := if q < 0 then 0 else if 1 < q then 1 else q

/-- Does the issue list contain a CRITICAL-severity issue? -/
def hasCritical (issues : List CoherenceIssue) : Bool :=
  issues.any fun i => i.severity == .critical

/-- Modelled from the spec: the coherence threshold 0.70 (spec §4.1). -/
def COHERENCE_THRESHOLD : ℚ := 7/10

/-- Modelled from the spec: `validate(snapshot, config) -> CoherenceResult` —
run the enabled rules, score 1.0 minus the severity penalties clamped to
[0,1]; coherent iff score ≥ 0.70 and no CRITICAL issue (spec §4.1). -/
def validate (cfg : ValidatorConfig) (snap : CascadeSnapshot) : CoherenceResult :=
  let issues := collectIssues cfg snap
  let score := clampScore (1 - penaltySum issues)
  { is_coherent := decide (COHERENCE_THRESHOLD ≤ score) && !hasCritical issues,
    score := score,
    issues := issues,
    warnings := [] }

/-- Modelled from the spec: the stateless convenience entry point
`validateCascade(snapshot)` using the default rule configuration (spec §6). -/
def validate_cascade (snap : CascadeSnapshot) : CoherenceResult :=
  validate {} snap

/-- Modelled from the spec: the persisted Coherence Validation Record — one
row per envelope (spec §3): identifier, latest score, issue count, issue
list, snapshot copy, cure attempt count, original pre-cure score, coherent
flag, curing-exhausted flag. -/
structure CoherenceValidationRecord where
  envelope_id : String
  coherence_score : ℚ
  issue_count : Nat
  issues : List CoherenceIssue
  cascade_snapshot : CascadeSnapshot
  cure_attempt_count : Nat
  original_score : Option ℚ
  is_coherent : Bool
  curing_exhausted : Bool
deriving DecidableEq

/-- Does a record's score lie inside the optional score band? -/
def scoreBandOk (minScore maxScore : Option ℚ) (r : CoherenceValidationRecord) : Bool :=
  (match minScore with
   | some m => decide (m ≤ r.coherence_score)
   | none => true) &&
  (match maxScore with
   | some m => decide (r.coherence_score ≤ m)
   | none => true)

/-- Modelled from the spec: the candidate-selection predicate of
`getCureCandidates` — incoherent, not exhausted, attempts below the limit,
optionally narrowed by a score band (spec §4.2). -/
def isCureCandidate (maxAttempts : Nat) (minScore maxScore : Option ℚ)
    (r : CoherenceValidationRecord) : Bool :=
  !r.is_coherent && !r.curing_exhausted &&
    decide (r.cure_attempt_count < maxAttempts) && scoreBandOk minScore maxScore r

/-- Ascending order on coherence scores (worst candidates first). -/
def scoreAsc (a b : CoherenceValidationRecord) : Prop :=
  a.coherence_score ≤ b.coherence_score

instance : DecidableRel scoreAsc := fun a b =>
  inferInstanceAs (Decidable (a.coherence_score ≤ b.coherence_score))

instance : IsTotal CoherenceValidationRecord scoreAsc :=
  ⟨fun a b => le_total a.coherence_score b.coherence_score⟩

instance : IsTrans CoherenceValidationRecord scoreAsc :=
  ⟨fun _ _ _ hab hbc => le_trans hab hbc⟩

/-- Modelled from the spec: `getCureCandidates(limit, minScore?, maxScore?)`
over the persisted table — filter by the selection predicate, order by
ascending coherence score, cap at `limit`; an empty result is a normal
outcome, not an error (spec §4.2). -/
def get_cure_candidates (maxAttempts : Nat) (table : List CoherenceValidationRecord)
    (limit : Nat) (minScore maxScore : Option ℚ) : List CoherenceValidationRecord :=
  (List.insertionSort scoreAsc
    (table.filter (isCureCandidate maxAttempts minScore maxScore))).take limit

/-- Modelled from the spec: an active remediation prompt/template
(`loadActivePrompt`, spec §6). -/
structure PromptData where
  prompt_content : String
  prompt_version : String
  model_used : String
deriving DecidableEq

/-- Modelled from the spec: a successful upgraded-model extraction result —
the same output shape as initial extraction (summary, priority, confidence,
action items) plus token-usage counters (spec §4.3 step 4, §6). -/
structure ExtractionOutput where
  executive_summary : String
  recommended_priority : String
  confidence : ℚ
  action_items : List RawAction
  tokens_input : Nat
  tokens_output : Nat
deriving DecidableEq

/-- Outcome status of one cure attempt (spec §4.3 step 8). -/
inductive CureStatus
  | cured
  | improved
  | no_improvement
  | error
  | exhausted
deriving DecidableEq

/-- Modelled from the spec: the external collaborators one `cureSingle` call
interacts with — the persisted validation record for the envelope (if any),
the active prompt (if any), and the opaque model call's reply (`none` is an
extraction failure) (spec §4.3, §6). -/
structure CureEnv where
  record : Option CoherenceValidationRecord
  prompt : Option PromptData
  extraction : Option ExtractionOutput
deriving DecidableEq

/-- Result of one `cureSingle` call: the status, token counters, whether the
model extraction was invoked at all, and the new persisted record (`none`
when nothing was written). -/
structure CureOutcome where
  status : CureStatus
  envelope_id : String
  new_score : Option ℚ
  tokens_in : Nat
  tokens_out : Nat
  extraction_invoked : Bool
  updated_record : Option CoherenceValidationRecord
deriving DecidableEq

/-- Modelled from the spec: merge the new final-layer output into the
original snapshot, replacing only the final-layer fields (spec §4.3 step 6).
Prepending shadows the old values because field lookup takes the first hit. -/
def mergeCuredOutput (out : ExtractionOutput) (snap : CascadeSnapshot) : CascadeSnapshot :=
  ("l9_executive_summary", .str out.executive_summary)
    :: ("l9_priority", .str out.recommended_priority)
    :: ("l9_action_items", .actions out.action_items)
    :: snap

/-- Modelled from the spec: the persisted update after a successful
re-extraction — new score, issue list/count and snapshot, incremented attempt
count, `original_score` set once, `curing_exhausted` recomputed from the new
attempt count vs. the maximum, coherent flag from the new result (spec §4.3
step 7). -/
def recordAfterCure (maxAttempts : Nat) (r : CoherenceValidationRecord)
    (merged : CascadeSnapshot) (res : CoherenceResult) : CoherenceValidationRecord :=
  { r with
    coherence_score := res.score,
    issue_count := res.issues.length,
    issues := res.issues,
    cascade_snapshot := merged,
    cure_attempt_count := r.cure_attempt_count + 1,
    original_score :=
      (match r.original_score with
       | some s => some s
       | none => some r.coherence_score),
    is_coherent := res.is_coherent,
    curing_exhausted := decide (maxAttempts ≤ r.cure_attempt_count + 1) }

/-- Modelled from the spec: the persisted update after an extraction failure —
the attempt was consumed, so the attempt count is still incremented and the
exhausted flag recomputed; everything else is unchanged (spec §4.3 step 5). -/
def recordAfterFailedCure (maxAttempts : Nat) (r : CoherenceValidationRecord) :
    CoherenceValidationRecord :=
  { r with
    cure_attempt_count := r.cure_attempt_count + 1,
    curing_exhausted := decide (maxAttempts ≤ r.cure_attempt_count + 1) }

/-- Modelled from the spec: the `cureSingle(envelopeId)` state machine —
record-not-found → error; attempts already at/above the maximum → exhausted
without further work; no active prompt → error; extraction failure → error
with the attempt still consumed; otherwise merge, re-validate and persist,
with the status branching to cured / improved / no_improvement (spec §4.3). -/
def cure_single (maxAttempts : Nat) (env : CureEnv) (envelopeId : String) : CureOutcome :=
  match env.record with
  | none =>
    { status := .error, envelope_id := envelopeId, new_score := none,
      tokens_in := 0, tokens_out := 0, extraction_invoked := false,
      updated_record := none }
  | some r =>
    if maxAttempts ≤ r.cure_attempt_count then
      { status := .exhausted, envelope_id := envelopeId, new_score := none,
        tokens_in := 0, tokens_out := 0, extraction_invoked := false,
        updated_record := none }
    else
      match env.prompt with
      | none =>
        { status := .error, envelope_id := envelopeId, new_score := none,
          tokens_in := 0, tokens_out := 0, extraction_invoked := false,
          updated_record := none }
      | some _ =>
        match env.extraction with
        | none =>
          { status := .error, envelope_id := envelopeId, new_score := none,
            tokens_in := 0, tokens_out := 0, extraction_invoked := true,
            updated_record := some (recordAfterFailedCure maxAttempts r) }
        | some out =>
          let merged := mergeCuredOutput out r.cascade_snapshot
          let res := validate_cascade merged
          let status :=
            if res.is_coherent then CureStatus.cured
            else if r.coherence_score < res.score then CureStatus.improved
            else CureStatus.no_improvement
          { status := status, envelope_id := envelopeId, new_score := some res.score,
            tokens_in := out.tokens_input, tokens_out := out.tokens_output,
            extraction_invoked := true,
            updated_record := some (recordAfterCure maxAttempts r merged res) }

/-- The record evolution induced by one `cureSingle` call on one envelope's
validation record: apply the persisted update when one was written. -/
def applyCureOp (maxAttempts : Nat) (env : CureEnv) (envelopeId : String)
    (r : CoherenceValidationRecord) : CoherenceValidationRecord :=
  match (cure_single maxAttempts
      { env with record := some r } envelopeId).updated_record with
  | some r2 => r2
  | none => r

/-- A sequence of curing operations on one envelope's validation record. -/
def runCureOps (maxAttempts : Nat) (envelopeId : String) (ops : List CureEnv)
    (r : CoherenceValidationRecord) : CoherenceValidationRecord :=
  ops.foldl (fun acc env => applyCureOp maxAttempts env envelopeId acc) r

/-- Modelled from the spec: the invariant of the validation record (spec §3):
the attempt count is bounded by the configured maximum and the exhausted flag
holds exactly when the count has reached the maximum. -/
def recordInvariant (maxAttempts : Nat) (r : CoherenceValidationRecord) : Prop :=
  r.cure_attempt_count ≤ maxAttempts ∧
    (r.curing_exhausted = true ↔ maxAttempts ≤ r.cure_attempt_count)

/-- Modelled from the spec: the batch aggregate (spec §4.4). -/
structure BatchAggregate where
  status : String
  processed : Nat
  cured : Nat
  improved : Nat
  no_improvement : Nat
  errors : Nat
  exhausted : Nat
  tokens_in : Nat
  tokens_out : Nat
deriving DecidableEq

/-- Fold one outcome into the running aggregate; token counters are only
added for outcomes whose status is not `error` (spec §4.4). -/
def addOutcome (agg : BatchAggregate) (o : CureOutcome) : BatchAggregate :=
  { agg with
    processed := agg.processed + 1,
    cured := agg.cured + (if o.status = .cured then 1 else 0),
    improved := agg.improved + (if o.status = .improved then 1 else 0),
    no_improvement := agg.no_improvement + (if o.status = .no_improvement then 1 else 0),
    errors := agg.errors + (if o.status = .error then 1 else 0),
    exhausted := agg.exhausted + (if o.status = .exhausted then 1 else 0),
    tokens_in := agg.tokens_in + (if o.status = .error then 0 else o.tokens_in),
    tokens_out := agg.tokens_out + (if o.status = .error then 0 else o.tokens_out) }

/-- The all-zero aggregate with a given status string. -/
def emptyAggregate (status : String) : BatchAggregate :=
  { status := status, processed := 0, cured := 0, improved := 0,
    no_improvement := 0, errors := 0, exhausted := 0, tokens_in := 0, tokens_out := 0 }

/-- Modelled from the spec: the `cureBatch` driver — no candidates → status
`no_candidates` with zero processed; otherwise run `cureSingle` on every
candidate and aggregate outcome counts and token usage (spec §4.4).  A
candidate is an envelope id paired with the external world `cureSingle`
observes for it.  `cureOutcomes` is the per-candidate outcome list the
driver folds over. -/
def cureOutcomes (maxAttempts : Nat) (candidates : List (String × CureEnv)) :
    List CureOutcome :=
  candidates.map (fun c => cure_single maxAttempts c.2 c.1)

def cure_batch (maxAttempts : Nat) (candidates : List (String × CureEnv)) : BatchAggregate :=
  if candidates.isEmpty then emptyAggregate "no_candidates"
  else (cureOutcomes maxAttempts candidates).foldl addOutcome (emptyAggregate "completed")

/-- Modelled from the spec: the convenience entry point
`cure_incoherent_envelopes`, which simply forwards to the batch driver
(spec §4.4). -/
def cure_incoherent_envelopes (maxAttempts : Nat)
    (candidates : List (String × CureEnv)) : BatchAggregate :=
  cure_batch maxAttempts candidates

/-- Snapshot with urgency 5 against priority "low": exactly one CRITICAL
urgency–priority issue (test `test_critical_issue_reduces_score_025`). -/
def upCriticalSnapshot : CascadeSnapshot :=
  [("l5_urgency_score", .int 5), ("l9_priority", .str "low")]

/-- Snapshot with urgency 1 against priority "critical": exactly one HIGH
urgency–priority issue (test `test_high_issue_reduces_score_015`). -/
def upHighSnapshot : CascadeSnapshot :=
  [("l5_urgency_score", .int 1), ("l9_priority", .str "critical")]

/-- Snapshot accumulating more than 1.0 of penalties, to exercise the lower
clamp (patterned on `test_score_cannot_go_negative`). -/
def overloadSnapshot : CascadeSnapshot :=
  [("l5_urgency_score", .int 5), ("l9_priority", .str "low"),
   ("l2_sentiment", .str "positive"), ("l4_sender_posture", .str "complaining"),
   ("l9_executive_summary", .str "General inquiry."),
   ("l3_entities", .entities []),
   ("l9_action_items", .actions
     [{ action := some "Call customer" }, { action := some "Verify invoice" },
      { action := some "Email customer" }, { action := some "Track delivery" }]),
   ("l7_complexity_score", .int 5), ("l7_est_minutes", .int 2)]

/-- Snapshot whose fields are all `None` (test `test_handles_none_values`). -/
def noneSnapshot : CascadeSnapshot :=
  [("l5_urgency_score", .null), ("l9_priority", .null),
   ("l9_executive_summary", .null), ("l3_entities", .null),
   ("l9_action_items", .null)]

/-- Snapshot whose urgency is a non-numeric value
(test `test_handles_invalid_urgency_score`). -/
def nonNumericUrgencySnapshot : CascadeSnapshot :=
  [("l5_urgency_score", .str "not_a_number"), ("l9_priority", .str "medium")]

/-- Snapshot whose urgency 100 is out of range and clamps to 5, matching the
"critical" priority (test `test_handles_urgency_out_of_range`). -/
def outOfRangeUrgencySnapshot : CascadeSnapshot :=
  [("l5_urgency_score", .int 100), ("l9_priority", .str "critical")]

/-- An incoherent, curable validation record (score 0.5, no attempts yet). -/
def candRecordA : CoherenceValidationRecord :=
  { envelope_id := "env-a", coherence_score := 1/2, issue_count := 1,
    issues := [], cascade_snapshot := [], cure_attempt_count := 0,
    original_score := none, is_coherent := false, curing_exhausted := false }

/-- An incoherent record already at the attempt limit (3 attempts). -/
def candRecordB : CoherenceValidationRecord :=
  { envelope_id := "env-b", coherence_score := 1/4, issue_count := 2,
    issues := [], cascade_snapshot := [], cure_attempt_count := 3,
    original_score := some (1/5), is_coherent := false, curing_exhausted := true }

/-- A small persisted table for concrete candidate-selection runs. -/
def candTable : List CoherenceValidationRecord := [candRecordA, candRecordB]

/-- A concrete active prompt. -/
def promptW : PromptData :=
  { prompt_content := "You are an AI assistant",
    prompt_version := "v2.1", model_used := "claude-haiku-4-5-20251001" }

/-- External world for a call on an envelope whose record is already at the
attempt limit (test `test_cure_single_returns_exhausted_if_max_attempts_reached`). -/
def exhaustedEnv : CureEnv :=
  { record := some candRecordB, prompt := some promptW, extraction := none }

/-- External world for a cure attempt whose model extraction fails. -/
def failEnv : CureEnv :=
  { record := some candRecordA, prompt := some promptW, extraction := none }

section
attribute [local semireducible] Rat.add Rat.sub Rat.mul Rat.inv

theorem clampScore_nonneg (q : ℚ) : 0 ≤ clampScore q := by
  unfold clampScore
  split_ifs with h1 h2
  · exact le_refl 0
  · exact zero_le_one
  · exact le_of_not_lt h1

theorem clampScore_le_one (q : ℚ) : clampScore q ≤ 1 := by
  unfold clampScore
  split_ifs with h1 h2
  · exact zero_le_one
  · exact le_refl 1
  · exact le_of_not_lt h2

/-- C1: for every snapshot and rule configuration, `is_coherent` holds iff
the score is at least 0.70 and no CRITICAL-severity issue is present; and on
a concrete snapshot with a single CRITICAL issue the score 0.75 is above the
threshold yet `is_coherent` is false. -/
theorem validate_is_coherent_iff :
    (∀ (cfg : ValidatorConfig) (snap : CascadeSnapshot),
      (validate cfg snap).is_coherent = true ↔
        (COHERENCE_THRESHOLD ≤ (validate cfg snap).score ∧
          hasCritical (validate cfg snap).issues = false))
    ∧ COHERENCE_THRESHOLD ≤ (validate_cascade upCriticalSnapshot).score
    ∧ hasCritical (validate_cascade upCriticalSnapshot).issues = true
    ∧ (validate_cascade upCriticalSnapshot).is_coherent = false := by
  refine ⟨?_, by decide, by decide, by decide⟩
  intro cfg snap
  show (decide (COHERENCE_THRESHOLD ≤ _) && !hasCritical _) = true ↔ _
  simp only [Bool.and_eq_true, decide_eq_true_eq, Bool.not_eq_true']
  exact Iff.rfl

/-- C2: for every snapshot and configuration the score equals 1.0 minus the
per-severity penalties of the produced issues, clamped to [0,1]; the
penalties are 0.25 / 0.15 / 0.08 / 0.02 for CRITICAL / HIGH / MEDIUM / LOW;
a snapshot with exactly one CRITICAL issue scores 0.75, one with exactly one
HIGH issue scores 0.85, and an over-penalised snapshot clamps to 0. -/
theorem validate_score_decomposition :
    (∀ (cfg : ValidatorConfig) (snap : CascadeSnapshot),
      (validate cfg snap).score =
        clampScore (1 - penaltySum (validate cfg snap).issues))
    ∧ severityPenalty .critical = 25/100
    ∧ severityPenalty .high = 15/100
    ∧ severityPenalty .medium = 8/100
    ∧ severityPenalty .low = 2/100
    ∧ (validate_cascade upCriticalSnapshot).issues.map
        (fun i => i.severity) = [.critical]
    ∧ (validate_cascade upCriticalSnapshot).score = 3/4
    ∧ (validate_cascade upHighSnapshot).issues.map
        (fun i => i.severity) = [.high]
    ∧ (validate_cascade upHighSnapshot).score = 17/20
    ∧ 1 < penaltySum (validate_cascade overloadSnapshot).issues
    ∧ (validate_cascade overloadSnapshot).score = 0 :=
  ⟨fun _ _ => rfl, by decide, by decide, by decide, by decide,
   by decide, by decide, by decide, by decide, by decide, by decide⟩

/-- C4: `validate` is a total function of the raw input mapping — on every
mapping, including the empty one, `None`-valued fields, non-numeric urgency
and out-of-range urgency, it returns a result whose score lies in [0,1]; the
malformed fields are skipped or clamped, producing no issue by themselves. -/
theorem validate_total_wellformed :
    (∀ (cfg : ValidatorConfig) (snap : CascadeSnapshot),
      0 ≤ (validate cfg snap).score ∧ (validate cfg snap).score ≤ 1)
    ∧ (validate_cascade []).issues = []
    ∧ (validate_cascade []).score = 1
    ∧ (validate_cascade []).is_coherent = true
    ∧ (validate_cascade noneSnapshot).issues = []
    ∧ (validate_cascade nonNumericUrgencySnapshot).issues = []
    ∧ (validate_cascade outOfRangeUrgencySnapshot).issues = []
    ∧ snapUrgency outOfRangeUrgencySnapshot = some 5 :=
  ⟨fun cfg snap => ⟨clampScore_nonneg _, clampScore_le_one _⟩,
   by decide, by decide, by decide, by decide, by decide, by decide, by decide⟩

/-- C10: `validate` is deterministic — any two results obtained from the same
snapshot and the same configuration agree on every component.  (In this
functional model a `CoherenceResult` is immutable by construction.) -/
theorem validate_deterministic :
    ∀ (cfg : ValidatorConfig) (snap : CascadeSnapshot)
      (r1 r2 : CoherenceResult),
      r1 = validate cfg snap → r2 = validate cfg snap →
      r1.is_coherent = r2.is_coherent ∧ r1.score = r2.score ∧
        r1.issues = r2.issues ∧ r1.warnings = r2.warnings := by
  rintro cfg snap r1 r2 rfl rfl
  exact ⟨rfl, rfl, rfl, rfl⟩

/-- Witness for C10 at a concrete snapshot and the default configuration. -/
theorem validate_deterministic_witness :
    (validate {} upCriticalSnapshot).is_coherent =
        (validate {} upCriticalSnapshot).is_coherent
    ∧ (validate {} upCriticalSnapshot).score = (validate {} upCriticalSnapshot).score
    ∧ (validate {} upCriticalSnapshot).issues = (validate {} upCriticalSnapshot).issues
    ∧ (validate {} upCriticalSnapshot).warnings =
        (validate {} upCriticalSnapshot).warnings :=
  validate_deterministic {} upCriticalSnapshot _ _ rfl rfl


theorem urgencyMismatchSeverity_eq_spec (u : Int) (pl : String) :
    urgencyMismatchSeverity u pl =
      if (u = 4 ∨ u = 5) ∧ pl = "low" then .critical
      else if (u = 1 ∨ u = 2) ∧ (pl = "critical" ∨ pl = "high") then .high
      else .medium := by
  unfold urgencyMismatchSeverity
  by_cases h4 : u = 4 <;> by_cases h5 : u = 5 <;> by_cases h1 : u = 1 <;> by_cases h2 : u = 2 <;>
    by_cases hl : pl = "low" <;> by_cases hc : pl = "critical" <;> by_cases hh : pl = "high" <;>
    simp_all

/-- C3: for urgency 1–5 and a priority label compared case-insensitively, the
urgency–priority rule produces no issue when the pair is aligned under the
expected map (1→low, 2→low, 3→medium, 4→high, 5→critical), and otherwise
exactly one URGENCY_PRIORITY_MISMATCH issue whose severity is CRITICAL when
urgency is 4–5 against "low", HIGH when urgency is 1–2 against "critical" or
"high", and MEDIUM for every other mismatch. -/
theorem checkUrgencyPriority_cases (u : Int) (p : String)
    (_hu1 : 1 ≤ u) (_hu5 : u ≤ 5) :
    (strLower p = expectedPriority u → checkUrgencyPriority (some u) (some p) = [])
    ∧ (strLower p ≠ expectedPriority u →
        checkUrgencyPriority (some u) (some p) =
          [{ issue_type := .urgency_priority_mismatch,
             severity :=
               if (u = 4 ∨ u = 5) ∧ strLower p = "low" then .critical
               else if (u = 1 ∨ u = 2) ∧
                   (strLower p = "critical" ∨ strLower p = "high") then .high
               else .medium,
             description := "Urgency score does not align with recommended priority",
             layer_a := "L5", layer_b := "L9",
             evidence := some (strLower p) }]) := by
  constructor
  · intro he
    show (if (strLower p == expectedPriority u) = true then _ else _) = _
    simp [he]
  · intro hne
    show (if (strLower p == expectedPriority u) = true then _ else _) = _
    rw [if_neg (by simp [hne])]
    rw [urgencyMismatchSeverity_eq_spec]

/-- Witness for C3: urgency 5 against "LOW" (case-insensitive) yields the
single CRITICAL mismatch issue. -/
theorem checkUrgencyPriority_cases_witness :
    checkUrgencyPriority (some 5) (some "LOW") =
      [{ issue_type := .urgency_priority_mismatch,
         severity :=
           if ((5 : Int) = 4 ∨ (5 : Int) = 5) ∧ strLower "LOW" = "low" then .critical
           else if ((5 : Int) = 1 ∨ (5 : Int) = 2) ∧
               (strLower "LOW" = "critical" ∨ strLower "LOW" = "high") then .high
           else .medium,
         description := "Urgency score does not align with recommended priority",
         layer_a := "L5", layer_b := "L9",
         evidence := some (strLower "LOW") }] :=
  (checkUrgencyPriority_cases 5 "LOW" (by decide) (by decide)).2 (by decide)

/-- C9: a summary containing a listed boilerplate phrase (case-insensitive)
yields exactly one GENERIC_SUMMARY issue; every non-empty summary shorter
than 30 characters yields a GENERIC_SUMMARY issue; the empty summary yields
no GENERIC_SUMMARY issue (the length check is not applied to it). -/
theorem checkGenericOutput_cases (s : String) :
    (genericPhrases.any (fun ph => containsPhrase s ph) = true →
      (checkGenericOutput s).length = 1 ∧
        ∀ i ∈ checkGenericOutput s, i.issue_type = .generic_summary)
    ∧ (s ≠ "" → s.length < 30 →
        ∃ i ∈ checkGenericOutput s, i.issue_type = .generic_summary)
    ∧ (s = "" → checkGenericOutput s = []) := by
  refine ⟨?_, ?_, ?_⟩
  · intro h
    unfold checkGenericOutput
    rw [if_pos h]
    exact ⟨rfl, by intro i hi; rw [List.mem_singleton] at hi; subst hi; rfl⟩
  · intro hne hlen
    unfold checkGenericOutput
    by_cases h : genericPhrases.any (fun ph => containsPhrase s ph) = true
    · rw [if_pos h]
      exact ⟨_, List.mem_singleton_self _, rfl⟩
    · rw [if_neg h, if_pos ⟨hne, hlen⟩]
      exact ⟨_, List.mem_singleton_self _, rfl⟩
  · intro h
    subst h
    decide

/-- Witness for C9: the boilerplate phrase case, the short-summary case and
the empty-summary case at concrete strings from the unit tests. -/
theorem checkGenericOutput_cases_witness :
    ((checkGenericOutput "Unable to generate specific summary due to processing issues.").length = 1
      ∧ ∀ i ∈ checkGenericOutput "Unable to generate specific summary due to processing issues.",
          i.issue_type = .generic_summary)
    ∧ (∃ i ∈ checkGenericOutput "Customer inquiry.", i.issue_type = .generic_summary)
    ∧ checkGenericOutput "" = [] :=
  ⟨(checkGenericOutput_cases "Unable to generate specific summary due to processing issues.").1
      (by decide),
   (checkGenericOutput_cases "Customer inquiry.").2.1 (by decide) (by decide),
   (checkGenericOutput_cases "").2.2 rfl⟩


/-- C5: `get_cure_candidates` returns only records from the table that are
incoherent, not exhausted and below the attempt limit, within the optional
score band; the result is ordered by ascending coherence score, capped at
`limit`, and empty (not an error) when nothing qualifies. -/
theorem get_cure_candidates_spec (maxAttempts : Nat)
    (table : List CoherenceValidationRecord)
    (limit : Nat) (minScore maxScore : Option ℚ) :
    (∀ r ∈ get_cure_candidates maxAttempts table limit minScore maxScore,
      r ∈ table ∧ r.is_coherent = false ∧ r.curing_exhausted = false ∧
        r.cure_attempt_count < maxAttempts ∧ scoreBandOk minScore maxScore r = true)
    ∧ List.Sorted scoreAsc (get_cure_candidates maxAttempts table limit minScore maxScore)
    ∧ (get_cure_candidates maxAttempts table limit minScore maxScore).length ≤ limit
    ∧ ((∀ r ∈ table, isCureCandidate maxAttempts minScore maxScore r = false) →
        get_cure_candidates maxAttempts table limit minScore maxScore = []) := by
  refine ⟨?_, ?_, ?_, ?_⟩
  · intro r hr
    have hr2 : r ∈ List.insertionSort scoreAsc
        (table.filter (isCureCandidate maxAttempts minScore maxScore)) :=
      List.take_subset _ _ hr
    have hr3 : r ∈ table.filter (isCureCandidate maxAttempts minScore maxScore) :=
      (List.perm_insertionSort scoreAsc _).subset hr2
    have hmem := (List.mem_filter.mp hr3).1
    have hpred := (List.mem_filter.mp hr3).2
    unfold isCureCandidate at hpred
    simp only [Bool.and_eq_true, Bool.not_eq_true', decide_eq_true_eq] at hpred
    exact ⟨hmem, hpred.1.1.1, hpred.1.1.2, hpred.1.2, hpred.2⟩
  · exact (List.sorted_insertionSort scoreAsc _).sublist (List.take_sublist _ _)
  · exact List.length_take_le _ _
  · intro hall
    unfold get_cure_candidates
    rw [List.filter_eq_nil_iff.mpr (by intro a ha; simp [hall a ha])]
    simp

/-- Witness for C5: on a concrete two-record table with attempt limit 3, the
curable record is selected and satisfies the selection predicate. -/
theorem get_cure_candidates_spec_witness :
    candRecordA ∈ candTable ∧ candRecordA.is_coherent = false ∧
      candRecordA.curing_exhausted = false ∧
      candRecordA.cure_attempt_count < 3 ∧ scoreBandOk none none candRecordA = true :=
  (get_cure_candidates_spec 3 candTable 10 none none).1 candRecordA (by decide)


/-- C6: `cure_single` on an envelope whose record is already at or above the
attempt limit returns status `exhausted` without invoking model extraction
and without writing anything. -/
theorem cure_single_exhausted (maxAttempts : Nat) (env : CureEnv)
    (envelopeId : String) (r : CoherenceValidationRecord)
    (hrec : env.record = some r) (hmax : maxAttempts ≤ r.cure_attempt_count) :
    cure_single maxAttempts env envelopeId =
      { status := .exhausted, envelope_id := envelopeId, new_score := none,
        tokens_in := 0, tokens_out := 0, extraction_invoked := false,
        updated_record := none } := by
  unfold cure_single
  rw [hrec]
  simp [hmax]

/-- Witness for C6: a record with 3 attempts under limit 3 short-circuits. -/
theorem cure_single_exhausted_witness :
    cure_single 3 exhaustedEnv "env-b" =
      { status := .exhausted, envelope_id := "env-b", new_score := none,
        tokens_in := 0, tokens_out := 0, extraction_invoked := false,
        updated_record := none } :=
  cure_single_exhausted 3 exhaustedEnv "env-b" candRecordB rfl (by decide)

theorem applyCureOp_mono_invariant (maxAttempts : Nat) (env : CureEnv)
    (envelopeId : String) (r : CoherenceValidationRecord) :
    r.cure_attempt_count ≤ (applyCureOp maxAttempts env envelopeId r).cure_attempt_count
    ∧ (recordInvariant maxAttempts r →
        recordInvariant maxAttempts (applyCureOp maxAttempts env envelopeId r)) := by
  unfold applyCureOp cure_single
  simp only
  by_cases hmax : maxAttempts ≤ r.cure_attempt_count
  · rw [if_pos hmax]
    exact ⟨le_refl _, fun h => h⟩
  · rw [if_neg hmax]
    have hlt : r.cure_attempt_count < maxAttempts := Nat.lt_of_not_le hmax
    cases hp : env.prompt with
    | none => exact ⟨le_refl _, fun h => h⟩
    | some pd =>
      cases he : env.extraction with
      | none =>
        exact ⟨Nat.le_succ _, fun _ => ⟨hlt, by simp [recordAfterFailedCure]⟩⟩
      | some out =>
        exact ⟨Nat.le_succ _, fun _ => ⟨hlt, by simp [recordAfterCure]⟩⟩

theorem runCureOps_mono_invariant (maxAttempts : Nat) (envelopeId : String)
    (ops : List CureEnv) (r : CoherenceValidationRecord) :
    r.cure_attempt_count ≤ (runCureOps maxAttempts envelopeId ops r).cure_attempt_count
    ∧ (recordInvariant maxAttempts r →
        recordInvariant maxAttempts (runCureOps maxAttempts envelopeId ops r)) := by
  induction ops generalizing r with
  | nil => exact ⟨le_refl _, fun h => h⟩
  | cons env rest ih =>
    have hstep := applyCureOp_mono_invariant maxAttempts env envelopeId r
    have hrest := ih (applyCureOp maxAttempts env envelopeId r)
    exact ⟨le_trans hstep.1 hrest.1, fun h => hrest.2 (hstep.2 h)⟩

/-- C7: over any sequence of curing operations on a record satisfying the
record invariant, the attempt count is monotonically non-decreasing and stays
bounded by the configured maximum, `curing_exhausted` remains equivalent to
the attempt count having reached the maximum, an exhausted flag is never
unset, and a cure attempt ending in extraction failure still increments the
attempt count (status `error`, attempt consumed). -/
theorem cure_attempt_invariant (maxAttempts : Nat) (envelopeId : String)
    (ops : List CureEnv) (r : CoherenceValidationRecord)
    (hinv : recordInvariant maxAttempts r) :
    r.cure_attempt_count ≤ (runCureOps maxAttempts envelopeId ops r).cure_attempt_count
    ∧ (runCureOps maxAttempts envelopeId ops r).cure_attempt_count ≤ maxAttempts
    ∧ ((runCureOps maxAttempts envelopeId ops r).curing_exhausted = true ↔
        maxAttempts ≤ (runCureOps maxAttempts envelopeId ops r).cure_attempt_count)
    ∧ (r.curing_exhausted = true →
        (runCureOps maxAttempts envelopeId ops r).curing_exhausted = true)
    ∧ (∀ (env : CureEnv) (pd : PromptData),
        env.prompt = some pd → env.extraction = none →
        r.cure_attempt_count < maxAttempts →
        (cure_single maxAttempts { env with record := some r } envelopeId).status = .error
        ∧ (applyCureOp maxAttempts env envelopeId r).cure_attempt_count
            = r.cure_attempt_count + 1) := by
  have hrun := runCureOps_mono_invariant maxAttempts envelopeId ops r
  have hinv2 := hrun.2 hinv
  refine ⟨hrun.1, hinv2.1, hinv2.2, ?_, ?_⟩
  · intro hexh
    exact hinv2.2.mpr (le_trans (hinv.2.mp hexh) hrun.1)
  · intro env pd hp he hlt
    unfold applyCureOp cure_single
    simp only
    rw [if_neg (Nat.not_le.mpr hlt), hp, he]
    exact ⟨rfl, rfl⟩

/-- Witness for C7: one failed cure attempt on a fresh record under limit 3
consumes exactly one attempt and stays within the bound. -/
theorem cure_attempt_invariant_witness :
    candRecordA.cure_attempt_count ≤
        (runCureOps 3 "env-a" [failEnv] candRecordA).cure_attempt_count
    ∧ (runCureOps 3 "env-a" [failEnv] candRecordA).cure_attempt_count ≤ 3 :=
  ⟨(cure_attempt_invariant 3 "env-a" [failEnv] candRecordA
      ⟨by decide, by decide⟩).1,
   (cure_attempt_invariant 3 "env-a" [failEnv] candRecordA
      ⟨by decide, by decide⟩).2.1⟩

theorem foldl_addOutcome_counts (outs : List CureOutcome) (agg : BatchAggregate) :
    (outs.foldl addOutcome agg).processed = agg.processed + outs.length
    ∧ (outs.foldl addOutcome agg).cured
        = agg.cured + outs.countP (fun o => o.status == .cured)
    ∧ (outs.foldl addOutcome agg).improved
        = agg.improved + outs.countP (fun o => o.status == .improved)
    ∧ (outs.foldl addOutcome agg).no_improvement
        = agg.no_improvement + outs.countP (fun o => o.status == .no_improvement)
    ∧ (outs.foldl addOutcome agg).errors
        = agg.errors + outs.countP (fun o => o.status == .error)
    ∧ (outs.foldl addOutcome agg).exhausted
        = agg.exhausted + outs.countP (fun o => o.status == .exhausted)
    ∧ (outs.foldl addOutcome agg).tokens_in
        = agg.tokens_in +
            ((outs.filter (fun o => !(o.status == .error))).map
              (fun o => o.tokens_in)).sum
    ∧ (outs.foldl addOutcome agg).tokens_out
        = agg.tokens_out +
            ((outs.filter (fun o => !(o.status == .error))).map
              (fun o => o.tokens_out)).sum := by
  induction outs generalizing agg with
  | nil => simp
  | cons o rest ih =>
    have h := ih (addOutcome agg o)
    refine ⟨?_, ?_, ?_, ?_, ?_, ?_, ?_, ?_⟩
    · rw [List.foldl_cons, h.1]
      simp [addOutcome]
      omega
    · rw [List.foldl_cons, h.2.1, List.countP_cons]
      by_cases hs : o.status = .cured <;> simp [addOutcome, hs] <;> omega
    · rw [List.foldl_cons, h.2.2.1, List.countP_cons]
      by_cases hs : o.status = .improved <;> simp [addOutcome, hs] <;> omega
    · rw [List.foldl_cons, h.2.2.2.1, List.countP_cons]
      by_cases hs : o.status = .no_improvement <;> simp [addOutcome, hs] <;> omega
    · rw [List.foldl_cons, h.2.2.2.2.1, List.countP_cons]
      by_cases hs : o.status = .error <;> simp [addOutcome, hs] <;> omega
    · rw [List.foldl_cons, h.2.2.2.2.2.1, List.countP_cons]
      by_cases hs : o.status = .exhausted <;> simp [addOutcome, hs] <;> omega
    · rw [List.foldl_cons, h.2.2.2.2.2.2.1]
      by_cases hs : o.status = .error <;> simp [addOutcome, hs] <;> omega
    · rw [List.foldl_cons, h.2.2.2.2.2.2.2]
      by_cases hs : o.status = .error <;> simp [addOutcome, hs] <;> omega

/-- C8: the `cure_batch` aggregates count every selected candidate in
`processed`, count `cured` / `improved` / `no_improvement` / `errors` /
`exhausted` as the number of per-candidate outcomes with that status, and sum
`tokens_in` / `tokens_out` over the outcomes whose status is not `error`. -/
theorem cure_batch_aggregates (maxAttempts : Nat)
    (candidates : List (String × CureEnv)) :
    (cure_batch maxAttempts candidates).processed = candidates.length
    ∧ (cure_batch maxAttempts candidates).cured
        = (cureOutcomes maxAttempts candidates).countP (fun o => o.status == .cured)
    ∧ (cure_batch maxAttempts candidates).improved
        = (cureOutcomes maxAttempts candidates).countP (fun o => o.status == .improved)
    ∧ (cure_batch maxAttempts candidates).no_improvement
        = (cureOutcomes maxAttempts candidates).countP
            (fun o => o.status == .no_improvement)
    ∧ (cure_batch maxAttempts candidates).errors
        = (cureOutcomes maxAttempts candidates).countP (fun o => o.status == .error)
    ∧ (cure_batch maxAttempts candidates).exhausted
        = (cureOutcomes maxAttempts candidates).countP (fun o => o.status == .exhausted)
    ∧ (cure_batch maxAttempts candidates).tokens_in
        = (((cureOutcomes maxAttempts candidates).filter
              (fun o => !(o.status == .error))).map (fun o => o.tokens_in)).sum
    ∧ (cure_batch maxAttempts candidates).tokens_out
        = (((cureOutcomes maxAttempts candidates).filter
              (fun o => !(o.status == .error))).map (fun o => o.tokens_out)).sum := by
  unfold cure_batch
  by_cases hc : candidates.isEmpty
  · rw [if_pos hc]
    rw [List.isEmpty_iff] at hc
    subst hc
    simp [cureOutcomes, emptyAggregate]
  · rw [if_neg hc]
    have h := foldl_addOutcome_counts (cureOutcomes maxAttempts candidates)
      (emptyAggregate "completed")
    simp only [emptyAggregate] at h ⊢
    simp only [Nat.zero_add] at h
    have hlen : (cureOutcomes maxAttempts candidates).length = candidates.length := by
      unfold cureOutcomes
      exact List.length_map _ _
    exact ⟨h.1.trans hlen, h.2.1, h.2.2.1, h.2.2.2.1, h.2.2.2.2.1, h.2.2.2.2.2.1,
      h.2.2.2.2.2.2.1, h.2.2.2.2.2.2.2⟩

end
